import Mathlib

/-!
Verification of the Pomodoro timer core.

Shallow embedding of the timer state machine (`src/composables/useTimer.ts`),
the settings validator (`src/types/index.ts`) and the settings store
(`src/composables/useTimerSettings.ts`) of the claude-code-pomodoro-timer
repository, together with theorems settling the specification claims.

Modelling conventions:
* JavaScript numbers are modelled as rationals (`ℚ`); integrality tests
  (`Number.isInteger`) become `Rat.den = 1`.
* Wall-clock timestamps (`new Date().toISOString()`) are abstract naturals
  supplied as an explicit parameter to each operation that reads the clock.
* The `setInterval` handle is modelled by the boolean `intervalActive`
  (whether a periodic tick is currently scheduled); the tick callback itself
  is the `tick` transition.
* Functions returning a success boolean are modelled as `Bool × State`.
-/

namespace Pomodoro

/-- Type `SessionType` from `src/types/index.ts`: `'work' | 'shortBreak' | 'longBreak'`. -/
inductive SessionType where
  | work
  | shortBreak
  | longBreak
deriving DecidableEq, Repr

/-- Record `PomodoroSession` from `src/types/index.ts` (`PomodoroSessionSchema`).
`duration` is in seconds; `startTime`/`endTime` are abstract timestamps.
Note that `endTime` is a plain (non-optional) field, populated from the
moment the record is created. -/
structure PomodoroSession where
  id : String
  type : SessionType
  duration : ℚ
  startTime : ℕ
  endTime : ℕ
  completed : Bool
  interrupted : Bool
deriving DecidableEq, Repr

/-- The `TimerError.type` tags from `src/composables/useTimer.ts`. -/
inductive TimerErrorType where
  | invalid_duration
  | timer_conflict
  | session_creation_failed
deriving DecidableEq, Repr

/-- Record `TimerError` from `src/composables/useTimer.ts` (the `originalError`
payload is omitted: it only carries a caught JS exception). -/
structure TimerError where
  type : TimerErrorType
  message : String
deriving DecidableEq, Repr

/-- The complete mutable state of one `useTimer(...)` instance: the three
constructor arguments (captured by closure, in minutes) together with the
refs `currentMode`, `timeLeft`, `isRunning`, `sessionsCompleted`,
`intervalRef` (modelled as the boolean `intervalActive`), `currentSession`
and `timerError`. -/
structure TimerState where
  workDuration : ℚ
  shortBreakDuration : ℚ
  longBreakDuration : ℚ
  currentMode : SessionType
  timeLeft : ℚ
  isRunning : Bool
  sessionsCompleted : ℕ
  intervalActive : Bool
  currentSession : Option PomodoroSession
  timerError : Option TimerError
deriving DecidableEq, Repr

/-- Model of `validateDuration` (useTimer.ts): duration (seconds) must be positive,
at most 7200 and an integer (`Number.isInteger`). -/
def validateDuration (d : ℚ) : Prop :=
  0 < d ∧ d ≤ 7200 ∧ d.den = 1

instance : DecidablePred validateDuration := fun d => by
  unfold validateDuration; infer_instance

/-- The raw per-mode duration in seconds (`workDuration * 60` etc.),
before the defensive validation in `getDuration`. -/
def rawDuration (w sb lb : ℚ) : SessionType → ℚ
  | .work => w * 60
  | .shortBreak => sb * 60
  | .longBreak => lb * 60

/-- The safe default substituted by `getDuration` when validation fails:
25/5/15 minutes, in seconds. -/
def defaultSeconds : SessionType → ℚ
  | .work => 25 * 60
  | .shortBreak => 5 * 60
  | .longBreak => 15 * 60

/-- Model of `getDuration` (useTimer.ts), value and error side effect together: on an
invalid raw duration it sets `timerError` to `invalid_duration` and returns
the hardcoded default; otherwise it returns the raw duration and leaves
`timerError` as it was. -/
def getDurationErr (s : TimerState) (mode : SessionType) : ℚ × Option TimerError :=
  if validateDuration (rawDuration s.workDuration s.shortBreakDuration s.longBreakDuration mode) then
    (rawDuration s.workDuration s.shortBreakDuration s.longBreakDuration mode, s.timerError)
  else
    (defaultSeconds mode, some { type := .invalid_duration, message := "Invalid duration" })

/-- The value returned by `getDuration` (useTimer.ts), as a function of the
three captured constructor durations and the queried mode. -/
def getDuration (w sb lb : ℚ) (mode : SessionType) : ℚ :=
  if validateDuration (rawDuration w sb lb mode) then rawDuration w sb lb mode
  else defaultSeconds mode

theorem getDurationErr_fst (s : TimerState) (mode : SessionType) :
    (getDurationErr s mode).1 =
      getDuration s.workDuration s.shortBreakDuration s.longBreakDuration mode := by
  unfold getDurationErr getDuration
  split <;> rfl

/-- The computed `currentDuration` (useTimer.ts): `getDuration(currentMode)`. -/
def currentDuration (s : TimerState) : ℚ :=
  getDuration s.workDuration s.shortBreakDuration s.longBreakDuration s.currentMode

/-- The computed `progress` (useTimer.ts):
`((currentDuration - timeLeft) / currentDuration) * 100`. -/
def progress (s : TimerState) : ℚ :=
  (currentDuration s - s.timeLeft) / currentDuration s * 100

/-- The initial state built by `useTimer(w, sb, lb)`: mode `work`,
`timeLeft = workDuration * 60` (note: taken from the raw argument, not
through `getDuration`), not running, zero completed sessions, no interval,
no session, no error. -/
def initState (w sb lb : ℚ) : TimerState :=
  { workDuration := w
    shortBreakDuration := sb
    longBreakDuration := lb
    currentMode := .work
    timeLeft := w * 60
    isRunning := false
    sessionsCompleted := 0
    intervalActive := false
    currentSession := none
    timerError := none }

/-- Model of `pause` (useTimer.ts): stop running, clear the interval, and, when a
current session exists and is not completed, mark it `interrupted` and stamp
`endTime` with the clock value `t`. Always returns `true`. -/
def pause (t : ℕ) (s : TimerState) : Bool × TimerState :=
  let s1 := { s with isRunning := false, intervalActive := false }
  match s1.currentSession with
  | some sess =>
      if sess.completed then (true, s1)
      else
        (true, { s1 with currentSession := some { sess with interrupted := true, endTime := t } })
  | none => (true, s1)

/-- Model of `switchMode` (useTimer.ts): pause, set the mode, then set `timeLeft`
via `getDuration` (whose error side effect on `timerError` is kept). -/
def switchMode (t : ℕ) (s : TimerState) (mode : SessionType) : TimerState :=
  let s1 := (pause t s).2
  let s2 := { s1 with currentMode := mode }
  { s2 with timeLeft := (getDurationErr s2 mode).1
            timerError := (getDurationErr s2 mode).2 }

/-- Model of `createSession` (useTimer.ts): a fresh record for the current mode with
`duration` snapshotted from `currentDuration`, both timestamps stamped with
the creation instant, and both terminal flags false. The generated id is an
abstract input `id`; the `session_creation_failed` branch only fires when
the id generator throws, which the model does not represent. -/
def createSession (id : String) (t : ℕ) (s : TimerState) : PomodoroSession :=
  { id := id
    type := s.currentMode
    duration := currentDuration s
    startTime := t
    endTime := t
    completed := false
    interrupted := false }

/-- Model of `start` (useTimer.ts): when already running, set a `timer_conflict`
error and return false without any other change; otherwise clear the error,
lazily create a session when none is current, set the running flag and
schedule the interval. -/
def start (id : String) (t : ℕ) (s : TimerState) : Bool × TimerState :=
  if s.isRunning then
    (false, { s with timerError := some { type := .timer_conflict, message := "Timer is already running" } })
  else
    let s1 := { s with timerError := none }
    let s2 :=
      match s1.currentSession with
      | none => { s1 with currentSession := some (createSession id t s1) }
      | some _ => s1
    (true, { s2 with isRunning := true, intervalActive := true })

/-- Model of `complete` (useTimer.ts): pause, then, when the finished mode is `work`,
increment the counter and pick the next mode by `counter % 4 == 0`
(the literal constant 4 in the source); after a break the next mode is
always `work`. Finally perform the mode switch. -/
def complete (t : ℕ) (s : TimerState) : TimerState :=
  let s1 := (pause t s).2
  if s1.currentMode = .work then
    let s2 := { s1 with sessionsCompleted := s1.sessionsCompleted + 1 }
    let nextMode : SessionType :=
      if s2.sessionsCompleted % 4 = 0 then .longBreak else .shortBreak
    switchMode t s2 nextMode
  else
    switchMode t s1 .work

/-- The body of the `setInterval` callback scheduled by `start`
(useTimer.ts): decrement `timeLeft`, and when the result is ≤ 0 run
`complete` within the same tick. -/
def tick (t : ℕ) (s : TimerState) : TimerState :=
  let s1 := { s with timeLeft := s.timeLeft - 1 }
  if s1.timeLeft ≤ 0 then complete t s1 else s1

/-- Model of `reset` (useTimer.ts): pause, restore `timeLeft` to the current mode's
duration, drop the session and clear the error. Always returns `true`. -/
def reset (t : ℕ) (s : TimerState) : Bool × TimerState :=
  let s1 := (pause t s).2
  (true, { s1 with timeLeft := currentDuration s1
                   currentSession := none
                   timerError := none })

/-- One externally triggered transition of the engine: any public operation
at some clock value, or a firing of the scheduled tick (only possible while
an interval is active). -/
inductive Step : TimerState → TimerState → Prop where
  | start (id : String) (t : ℕ) (s : TimerState) : Step s (start id t s).2
  | pause (t : ℕ) (s : TimerState) : Step s (pause t s).2
  | reset (t : ℕ) (s : TimerState) : Step s (reset t s).2
  | switchMode (t : ℕ) (s : TimerState) (m : SessionType) : Step s (switchMode t s m)
  | tick (t : ℕ) (s : TimerState) : s.intervalActive = true → Step s (tick t s)

/-- States reachable from the construction `useTimer(w, sb, lb)` by any
sequence of operations and tick firings. -/
inductive Reachable (w sb lb : ℚ) : TimerState → Prop where
  | init : Reachable w sb lb (initState w sb lb)
  | step {s s' : TimerState} : Reachable w sb lb s → Step s s' → Reachable w sb lb s'


/-! Helper lemmas about the engine transitions. -/

theorem pause_fields (t : ℕ) (s : TimerState) :
    (pause t s).1 = true ∧
    (pause t s).2.workDuration = s.workDuration ∧
    (pause t s).2.shortBreakDuration = s.shortBreakDuration ∧
    (pause t s).2.longBreakDuration = s.longBreakDuration ∧
    (pause t s).2.currentMode = s.currentMode ∧
    (pause t s).2.timeLeft = s.timeLeft ∧
    (pause t s).2.isRunning = false ∧
    (pause t s).2.sessionsCompleted = s.sessionsCompleted ∧
    (pause t s).2.intervalActive = false ∧
    (pause t s).2.timerError = s.timerError := by
  unfold pause
  cases s.currentSession with
  | none => simp
  | some sess => by_cases h : sess.completed = true <;> simp [h]

theorem pause_session_isSome (t : ℕ) (s : TimerState) :
    ((pause t s).2.currentSession).isSome = s.currentSession.isSome := by
  unfold pause
  cases s.currentSession with
  | none => simp
  | some sess => by_cases h : sess.completed = true <;> simp [h]

theorem switchMode_workDuration (t : ℕ) (s : TimerState) (m : SessionType) :
    (switchMode t s m).workDuration = s.workDuration :=
  (pause_fields t s).2.1

theorem switchMode_shortBreakDuration (t : ℕ) (s : TimerState) (m : SessionType) :
    (switchMode t s m).shortBreakDuration = s.shortBreakDuration :=
  (pause_fields t s).2.2.1

theorem switchMode_longBreakDuration (t : ℕ) (s : TimerState) (m : SessionType) :
    (switchMode t s m).longBreakDuration = s.longBreakDuration :=
  (pause_fields t s).2.2.2.1

theorem switchMode_currentMode (t : ℕ) (s : TimerState) (m : SessionType) :
    (switchMode t s m).currentMode = m := rfl

theorem switchMode_sessionsCompleted (t : ℕ) (s : TimerState) (m : SessionType) :
    (switchMode t s m).sessionsCompleted = s.sessionsCompleted :=
  (pause_fields t s).2.2.2.2.2.2.2.1

theorem switchMode_currentSession (t : ℕ) (s : TimerState) (m : SessionType) :
    (switchMode t s m).currentSession = (pause t s).2.currentSession := rfl

theorem complete_fields (t : ℕ) (s : TimerState) :
    (complete t s).workDuration = s.workDuration ∧
    (complete t s).shortBreakDuration = s.shortBreakDuration ∧
    (complete t s).longBreakDuration = s.longBreakDuration := by
  obtain ⟨-, p1, p2, p3, -, -, -, -, -, -⟩ := pause_fields t s
  refine ⟨?_, ?_, ?_⟩ <;> simp only [complete] <;> split <;>
    first
      | (rw [switchMode_workDuration]; exact p1)
      | (rw [switchMode_shortBreakDuration]; exact p2)
      | (rw [switchMode_longBreakDuration]; exact p3)

theorem getDuration_pos (w sb lb : ℚ) (m : SessionType) : 0 < getDuration w sb lb m := by
  unfold getDuration
  split
  · exact (by assumption : validateDuration (rawDuration w sb lb m)).1
  · cases m <;> norm_num [defaultSeconds]

theorem currentDuration_pos (s : TimerState) : 0 < currentDuration s :=
  getDuration_pos s.workDuration s.shortBreakDuration s.longBreakDuration s.currentMode

/-- The clamping invariant the spec asserts for the countdown:
`timeLeft` lies between 0 and the current mode's effective duration. -/
def GoodTime (s : TimerState) : Prop :=
  0 ≤ s.timeLeft ∧ s.timeLeft ≤ currentDuration s

theorem goodTime_pause (t : ℕ) (s : TimerState) (h : GoodTime s) : GoodTime (pause t s).2 := by
  obtain ⟨-, p1, p2, p3, p4, p5, -, -, -, -⟩ := pause_fields t s
  constructor
  · rw [p5]; exact h.1
  · unfold currentDuration
    rw [p1, p2, p3, p4, p5]
    exact h.2

theorem goodTime_switchMode (t : ℕ) (s : TimerState) (m : SessionType) :
    GoodTime (switchMode t s m) := by
  have htl : (switchMode t s m).timeLeft =
      getDuration (pause t s).2.workDuration (pause t s).2.shortBreakDuration
        (pause t s).2.longBreakDuration m := by
    show (getDurationErr { (pause t s).2 with currentMode := m } m).1 = _
    rw [getDurationErr_fst]
  constructor
  · rw [htl]; exact le_of_lt (getDuration_pos _ _ _ m)
  · rw [htl]; exact le_of_eq rfl

theorem goodTime_complete (t : ℕ) (s : TimerState) : GoodTime (complete t s) := by
  simp only [complete]
  split
  · exact goodTime_switchMode t _ _
  · exact goodTime_switchMode t _ _

theorem goodTime_reset (t : ℕ) (s : TimerState) : GoodTime (reset t s).2 := by
  constructor
  · exact le_of_lt (currentDuration_pos (pause t s).2)
  · exact le_of_eq rfl

theorem goodTime_start (id : String) (t : ℕ) (s : TimerState) (h : GoodTime s) :
    GoodTime (start id t s).2 := by
  simp only [start]
  split
  · exact ⟨h.1, h.2⟩
  · split <;> exact ⟨h.1, h.2⟩

theorem goodTime_tick (t : ℕ) (s : TimerState) (h : GoodTime s) : GoodTime (tick t s) := by
  simp only [tick]
  split
  · exact goodTime_complete t _
  · rename_i hpos
    push_neg at hpos
    refine ⟨le_of_lt hpos, ?_⟩
    show s.timeLeft - 1 ≤ currentDuration s
    have h2 := h.2
    linarith

theorem goodTime_step {s s' : TimerState} (h : Step s s') (hg : GoodTime s) : GoodTime s' := by
  cases h with
  | start id t s => exact goodTime_start id t s hg
  | pause t s => exact goodTime_pause t s hg
  | reset t s => exact goodTime_reset t s
  | switchMode t s m => exact goodTime_switchMode t s m
  | tick t s _ => exact goodTime_tick t s hg

theorem goodTime_init (w sb lb : ℚ) (hw : validateDuration (w * 60)) :
    GoodTime (initState w sb lb) := by
  have hd : currentDuration (initState w sb lb) = w * 60 := by
    show getDuration w sb lb SessionType.work = w * 60
    unfold getDuration
    simp only [rawDuration]
    rw [if_pos hw]
  constructor
  · exact le_of_lt hw.1
  · show (w * 60 : ℚ) ≤ currentDuration (initState w sb lb)
    rw [hd]

theorem reachable_goodTime {w sb lb : ℚ} (hw : validateDuration (w * 60))
    {s : TimerState} (h : Reachable w sb lb s) : GoodTime s := by
  induction h with
  | init => exact goodTime_init w sb lb hw
  | step _ hstep ih => exact goodTime_step hstep ih

/-! Theorems settling the specification claims about the timer engine. -/

/-- C1 (counterexample): the claim demands that, with a configured
`sessionsBeforeLongBreak` of N for every N in [2,10], the mode following the
Nth work completion is `longBreak`. Take N = 2: after the second work
completion (two work completions with one break completion between them)
the engine is in `shortBreak`, not `longBreak`, because `complete()` uses
the literal modulus 4 and never reads the configured value (the engine does
not even receive `sessionsBeforeLongBreak` as a parameter). -/
theorem claim1_counterexample :
    (complete 2 (complete 1 (complete 0 (initState 25 5 15)))).sessionsCompleted = 2 ∧
    (complete 2 (complete 1 (complete 0 (initState 25 5 15)))).currentMode =
      SessionType.shortBreak := by
  constructor <;>
    simp +decide [complete, switchMode, pause, initState, currentDuration, getDuration,
      getDurationErr, rawDuration, validateDuration, defaultSeconds]

/-- C1 (amended): when `complete()` fires at the end of a work session, the
counter is incremented and the next mode is `longBreak` exactly when the
updated counter is divisible by the hardcoded constant 4, independently of
any configured `sessionsBeforeLongBreak`; after a break the next mode is
always `work` and the counter is unchanged. -/
theorem claim1_amended (t : ℕ) (s : TimerState) :
    (s.currentMode = SessionType.work →
      (complete t s).sessionsCompleted = s.sessionsCompleted + 1 ∧
      (complete t s).currentMode =
        (if (s.sessionsCompleted + 1) % 4 = 0 then SessionType.longBreak
         else SessionType.shortBreak)) ∧
    (s.currentMode ≠ SessionType.work →
      (complete t s).sessionsCompleted = s.sessionsCompleted ∧
      (complete t s).currentMode = SessionType.work) := by
  obtain ⟨-, -, -, -, p4, -, -, p7, -, -⟩ := pause_fields t s
  constructor
  · intro hw
    have hc : (pause t s).2.currentMode = SessionType.work := p4.trans hw
    simp only [complete]
    rw [if_pos hc]
    constructor
    · rw [switchMode_sessionsCompleted]
      exact congrArg (fun n => n + 1) p7
    · rw [switchMode_currentMode, p7]
  · intro hnw
    have hc : ¬ (pause t s).2.currentMode = SessionType.work := by rw [p4]; exact hnw
    simp only [complete]
    rw [if_neg hc]
    exact ⟨(switchMode_sessionsCompleted t _ _).trans p7, switchMode_currentMode t _ _⟩

/-- C1 (witness for the amended claim): from the fresh engine, the first work
completion increments the counter to 1 and switches to `shortBreak`. -/
theorem claim1_witness :
    (complete 0 (initState 25 5 15)).sessionsCompleted = 1 ∧
    (complete 0 (initState 25 5 15)).currentMode = SessionType.shortBreak := by
  have h := (claim1_amended 0 (initState 25 5 15)).1 rfl
  refine ⟨h.1, ?_⟩
  rw [h.2]
  norm_num [initState]

/-- C2: evaluating the engine on a work session whose countdown reaches zero
naturally (duration 1 second, started at time 0, tick at time 1, which fires
`complete()`): the finalized session record has `completed = false` and
`interrupted = true` — `complete()` routes through `pause()`, which marks the
not-yet-completed session interrupted, and no code path ever sets
`completed := true` in the engine. The mode switch to `shortBreak` in the
second conjunct shows that the completion transition did fire. -/
theorem claim2_natural_completion_flags :
    Option.map (fun sess => (sess.completed, sess.interrupted))
        ((tick 1 ((start "w1" 0 (initState ((1 : ℚ)/60) 5 15)).2)).currentSession) =
      some (false, true) ∧
    (tick 1 ((start "w1" 0 (initState ((1 : ℚ)/60) 5 15)).2)).currentMode =
      SessionType.shortBreak := by
  constructor <;>
    simp +decide [tick, start, initState, complete, switchMode, pause, createSession,
      currentDuration, getDuration, getDurationErr, rawDuration, validateDuration,
      defaultSeconds]

/-- C3 (counterexample): the claim says the engine's `currentSession` is
absent (null) after the completion transition performs its mode switch. On
the state right after a natural completion (the mode switch to `shortBreak`
has happened, second conjunct) the session reference is still present:
`switchMode` never clears it. -/
theorem claim3_counterexample :
    ((tick 1 ((start "w2" 0 (initState ((1 : ℚ)/60) 5 15)).2)).currentSession).isSome = true ∧
    (tick 1 ((start "w2" 0 (initState ((1 : ℚ)/60) 5 15)).2)).currentMode =
      SessionType.shortBreak := by
  constructor <;>
    simp +decide [tick, start, initState, complete, switchMode, pause, createSession,
      currentDuration, getDuration, getDurationErr, rawDuration, validateDuration,
      defaultSeconds]

/-- C3 (amended): `currentSession` is cleared by `reset()` only; the
completion transition preserves the presence of the session reference
(it neither clears nor replaces it). On the next `start()` a session is
created lazily only when none is current — when an old session is still
referenced, `start()` reuses it unchanged. -/
theorem claim3_amended (id : String) (t : ℕ) (s : TimerState) :
    (reset t s).2.currentSession = none ∧
    ((complete t s).currentSession).isSome = s.currentSession.isSome ∧
    (s.isRunning = false → s.currentSession = none →
      (start id t s).2.currentSession =
        some (createSession id t { s with timerError := none })) ∧
    (s.isRunning = false → ∀ sess, s.currentSession = some sess →
      (start id t s).2.currentSession = some sess) := by
  refine ⟨rfl, ?_, ?_, ?_⟩
  · simp only [complete]
    split <;>
      · rw [switchMode_currentSession, pause_session_isSome]
        exact pause_session_isSome t s
  · intro hr hnone
    simp [start, hr, hnone]
  · intro hr sess hsome
    simp [start, hr, hsome]

/-- C3 (witness for the amended claim): on the fresh engine, `reset` leaves
no session and `start` creates one lazily. -/
theorem claim3_witness :
    (reset 0 (initState 25 5 15)).2.currentSession = none ∧
    (start "w3" 0 (initState 25 5 15)).2.currentSession =
      some (createSession "w3" 0 { initState 25 5 15 with timerError := none }) := by
  have h := claim3_amended "w3" 0 (initState 25 5 15)
  exact ⟨h.1, h.2.2.1 rfl rfl⟩

/-- C5: calling `start()` on a running engine returns `false` and sets the
`timer_conflict` error, and the resulting state differs from the input state
in the `timerError` field only — in particular no session is created, no
interval is scheduled, and mode, remaining time and counter are untouched. -/
theorem claim5_start_conflict (id : String) (t : ℕ) (s : TimerState)
    (h : s.isRunning = true) :
    start id t s =
      (false, { s with timerError := some { type := TimerErrorType.timer_conflict, message := "Timer is already running" } }) ∧
    (start id t s).2.currentSession = s.currentSession ∧
    (start id t s).2.intervalActive = s.intervalActive ∧
    (start id t s).2.currentMode = s.currentMode ∧
    (start id t s).2.timeLeft = s.timeLeft ∧
    (start id t s).2.sessionsCompleted = s.sessionsCompleted := by
  have h1 : start id t s =
      (false, { s with timerError := some { type := TimerErrorType.timer_conflict, message := "Timer is already running" } }) := by
    unfold start
    rw [if_pos h]
  refine ⟨h1, ?_, ?_, ?_, ?_, ?_⟩ <;> rw [h1]

/-- C5 (witness): a concrete running engine (fresh engine after one `start`)
on which a second `start` fails with `timer_conflict` and changes nothing
else. -/
theorem claim5_witness :
    ((start "a" 0 (initState 25 5 15)).2).isRunning = true ∧
    (start "b" 1 ((start "a" 0 (initState 25 5 15)).2)).1 = false ∧
    (start "b" 1 ((start "a" 0 (initState 25 5 15)).2)).2.timerError =
      some { type := TimerErrorType.timer_conflict, message := "Timer is already running" } ∧
    (start "b" 1 ((start "a" 0 (initState 25 5 15)).2)).2.currentSession =
      ((start "a" 0 (initState 25 5 15)).2).currentSession := by
  have hr : ((start "a" 0 (initState 25 5 15)).2).isRunning = true := rfl
  have h := claim5_start_conflict "b" 1 ((start "a" 0 (initState 25 5 15)).2) hr
  refine ⟨hr, ?_, ?_, h.2.1⟩
  · rw [h.1]
  · rw [h.1]

/-- C6 (counterexample): the claim includes engines constructed with
out-of-range duration arguments. For `useTimer(200, 5, 15)` (200 minutes
exceeds the 7200-second cap, so `currentDuration` substitutes the 1500-second
default while `timeLeft` is initialized to the raw 12000 seconds), the
initial — hence reachable — state has `progress = -700`, outside [0,100]. -/
theorem claim6_counterexample :
    Reachable 200 5 15 (initState 200 5 15) ∧
    progress (initState 200 5 15) = -700 ∧
    progress (initState 200 5 15) < 0 := by
  refine ⟨Reachable.init, ?_, ?_⟩ <;>
    norm_num [progress, initState, currentDuration, getDuration, rawDuration,
      validateDuration, defaultSeconds]

/-- C6 (amended): for engines whose three constructor durations pass the
engine's own duration validation, every reachable state satisfies
`progress = 100 * (currentDuration - timeLeft) / currentDuration`, progress
lies in [0,100], and the endpoints behave as claimed. -/
theorem claim6_amended (w sb lb : ℚ)
    (hw : validateDuration (w * 60)) (hsb : validateDuration (sb * 60))
    (hlb : validateDuration (lb * 60))
    (s : TimerState) (hs : Reachable w sb lb s) :
    progress s = 100 * (currentDuration s - s.timeLeft) / currentDuration s ∧
    0 ≤ progress s ∧ progress s ≤ 100 ∧
    (s.timeLeft = currentDuration s → progress s = 0) ∧
    (s.timeLeft = 0 → progress s = 100) := by
  have hd : 0 < currentDuration s := currentDuration_pos s
  obtain ⟨h0, h1⟩ := reachable_goodTime hw hs
  refine ⟨?_, ?_, ?_, ?_, ?_⟩
  · unfold progress; ring
  · unfold progress
    have hnn : 0 ≤ (currentDuration s - s.timeLeft) / currentDuration s :=
      div_nonneg (by linarith) (le_of_lt hd)
    exact mul_nonneg hnn (by norm_num)
  · unfold progress
    have hle : (currentDuration s - s.timeLeft) / currentDuration s ≤ 1 :=
      (div_le_one hd).mpr (by linarith)
    have := mul_le_mul_of_nonneg_right hle (by norm_num : (0:ℚ) ≤ 100)
    linarith
  · intro h
    unfold progress
    rw [h]
    simp
  · intro h
    unfold progress
    rw [h, sub_zero, div_self (ne_of_gt hd)]
    norm_num

/-- C6 (witness for the amended claim): the standard engine `useTimer(25,5,15)`
has valid durations, and its initial state has progress 0, within [0,100]. -/
theorem claim6_witness :
    validateDuration ((25 : ℚ) * 60) ∧ validateDuration ((5 : ℚ) * 60) ∧
    validateDuration ((15 : ℚ) * 60) ∧
    progress (initState 25 5 15) = 0 ∧
    0 ≤ progress (initState 25 5 15) ∧ progress (initState 25 5 15) ≤ 100 := by
  have hw : validateDuration ((25 : ℚ) * 60) := by norm_num [validateDuration]
  have hsb : validateDuration ((5 : ℚ) * 60) := by norm_num [validateDuration]
  have hlb : validateDuration ((15 : ℚ) * 60) := by norm_num [validateDuration]
  have h := claim6_amended 25 5 15 hw hsb hlb (initState 25 5 15) Reachable.init
  refine ⟨hw, hsb, hlb, ?_, h.2.1, h.2.2.1⟩
  refine h.2.2.2.1 ?_
  norm_num [initState, currentDuration, getDuration, rawDuration, validateDuration]

/-- C9: `pause` is idempotent — a second `pause` at the same instant produces
exactly the same result as the first — it always reports success, and it
leaves the engine not running with no tick scheduled; in particular the
session's interruption marking is unchanged by the second call. A `pause`
on a non-running engine goes through the same unconditional code path and
still returns success. -/
theorem claim9_pause_idempotent (t : ℕ) (s : TimerState) :
    pause t (pause t s).2 = pause t s ∧
    (pause t s).1 = true ∧
    (pause t s).2.isRunning = false ∧
    (pause t s).2.intervalActive = false ∧
    Option.map PomodoroSession.interrupted ((pause t (pause t s).2).2.currentSession) =
      Option.map PomodoroSession.interrupted ((pause t s).2.currentSession) := by
  have hidem : pause t (pause t s).2 = pause t s := by
    unfold pause
    cases s.currentSession with
    | none => simp
    | some sess => by_cases h : sess.completed = true <;> simp [h]
  obtain ⟨q1, -, -, -, -, -, q7, -, q9, -⟩ := pause_fields t s
  exact ⟨hidem, q1, q7, q9, by rw [hidem]⟩

/-- C10: every session built by `createSession` carries a populated `endTime`
equal to the creation timestamp, which is the same instant as `startTime`,
even though the session has not run yet (`completed` and `interrupted` are
both false at creation). -/
theorem claim10_createSession_endTime (id : String) (t : ℕ) (s : TimerState) :
    (createSession id t s).endTime = t ∧
    (createSession id t s).startTime = t ∧
    (createSession id t s).startTime = (createSession id t s).endTime ∧
    (createSession id t s).completed = false ∧
    (createSession id t s).interrupted = false :=
  ⟨rfl, rfl, rfl, rfl, rfl⟩

/-! Settings validator (`src/types/index.ts`) and settings store
(`src/composables/useTimerSettings.ts`). -/

/-- The notification sound enumeration from `NotificationSchema`. -/
inductive NotificationSound where
  | bell
  | chime
  | ding
  | none
deriving DecidableEq, Repr

/-- The nested `notifications` object of `PomodoroSettingsSchema`. -/
structure NotificationSettings where
  visual : Bool
  audio : Bool
  sound : NotificationSound
deriving DecidableEq, Repr

/-- The `theme` enumeration of `PomodoroSettingsSchema`. -/
inductive ThemeMode where
  | light
  | dark
  | system
deriving DecidableEq, Repr

/-- A validated `PomodoroSettings` value (`z.infer` of the schema). The zod
schema constrains the numeric fields with `min`/`max` only, so they stay
arbitrary JS numbers, modelled as `ℚ`. -/
structure PomodoroSettings where
  workDuration : ℚ
  shortBreakDuration : ℚ
  longBreakDuration : ℚ
  sessionsBeforeLongBreak : ℚ
  autoStartNextSession : Bool
  notifications : NotificationSettings
  theme : ThemeMode
  language : String
deriving DecidableEq, Repr

/-- An unknown candidate value handed to the validator, modelled as a record
of optional fields: `none` is an absent field. This covers the candidate
space the claims quantify over (fields present or missing, numeric fields
with arbitrary rational values); candidates carrying a field of an entirely
wrong JS type are rejected by zod just like missing ones and are not
represented separately. -/
structure SettingsCandidate where
  workDuration : Option ℚ
  shortBreakDuration : Option ℚ
  longBreakDuration : Option ℚ
  sessionsBeforeLongBreak : Option ℚ
  autoStartNextSession : Option Bool
  notifications : Option NotificationSettings
  theme : Option ThemeMode
  language : Option String
deriving DecidableEq, Repr

def isLowerAlpha (c : Char) : Bool :=
  'a' ≤ c && c ≤ 'z'

def isUpperAlpha (c : Char) : Bool :=
  'A' ≤ c && c ≤ 'Z'

/-- The regex `^[a-z]{2}(-[A-Z]{2})?$` applied to the `language` field. -/
def validLanguage (lang : String) : Bool :=
  match lang.toList with
  | [a, b] => isLowerAlpha a && isLowerAlpha b
  | [a, b, '-', c, d] => isLowerAlpha a && isLowerAlpha b && isUpperAlpha c && isUpperAlpha d
  | _ => false

/-- Model of `validatePomodoroSettings` / `PomodoroSettingsSchema.parse`
(`src/types/index.ts`): the parse succeeds exactly when every field is
present and within its schema bounds — note the schema uses `z.number()`
with `min`/`max` but no integrality constraint. A `none` result models the
thrown `ZodError`. Like zod's default object behavior, unknown extra keys
are ignored (stripped from the output). -/
def validatePomodoroSettings (c : SettingsCandidate) : Option PomodoroSettings :=
  match c.workDuration, c.shortBreakDuration, c.longBreakDuration, c.sessionsBeforeLongBreak,
      c.autoStartNextSession, c.notifications, c.theme, c.language with
  | some w, some sb, some lb, some n, some a, some nf, some th, some lang =>
      if 1 ≤ w ∧ w ≤ 120 ∧ 1 ≤ sb ∧ sb ≤ 60 ∧ 1 ≤ lb ∧ lb ≤ 120 ∧ 2 ≤ n ∧ n ≤ 10 ∧
          validLanguage lang = true then
        some { workDuration := w
               shortBreakDuration := sb
               longBreakDuration := lb
               sessionsBeforeLongBreak := n
               autoStartNextSession := a
               notifications := nf
               theme := th
               language := lang }
      else none
  | _, _, _, _, _, _, _, _ => none

/-- Model of `isValidPomodoroSettings` (`src/types/index.ts`): the
non-throwing `safeParse(...).success` form. -/
def isValidPomodoroSettings (c : SettingsCandidate) : Bool :=
  (validatePomodoroSettings c).isSome

/-- Model of `new DefaultPomodoroSettings()` (`src/types/index.ts`). -/
def defaultPomodoroSettings : PomodoroSettings :=
  { workDuration := 25
    shortBreakDuration := 5
    longBreakDuration := 15
    sessionsBeforeLongBreak := 4
    autoStartNextSession := false
    notifications := { visual := true, audio := true, sound := .bell }
    theme := .system
    language := "en" }

/-- A persisted value that `JSON.parse` accepted: its recognized settings
fields, plus a flag recording whether it carried unknown extra keys (zod
strips those, and object spread carries them along; they never influence
the outcome). -/
structure ParsedSettings where
  fields : SettingsCandidate
  hasUnknown : Bool
deriving DecidableEq, Repr

/-- Contents of the `pomodoro-settings` LocalStorage key: absent, present
but not parseable as JSON, or parsed. -/
inductive StoredValue where
  | empty
  | malformed
  | parsed (p : ParsedSettings)
deriving DecidableEq, Repr

/-- The storage collaborator: reachability of the backend, whether a real
write would exceed the quota, and the stored cell. -/
structure StorageState where
  available : Bool
  quotaFull : Bool
  stored : StoredValue
deriving DecidableEq, Repr

/-- The `StorageError.type` tags from `src/composables/useTimerSettings.ts`. -/
inductive StorageErrorType where
  | storage_unavailable
  | quota_exceeded
  | invalid_data
  | parse_error
deriving DecidableEq, Repr

/-- Record `StorageError` from `src/composables/useTimerSettings.ts`
(`originalError` omitted as in `TimerError`). -/
structure StorageError where
  type : StorageErrorType
  message : String
deriving DecidableEq, Repr

/-- The state owned by one `useTimerSettings()` instance (the `settings` and
`storageError` refs) together with the storage collaborator it talks to. -/
structure SettingsStoreState where
  settings : PomodoroSettings
  storageError : Option StorageError
  storage : StorageState
deriving DecidableEq, Repr

/-- A fully-populated candidate carrying exactly the fields of a validated
settings value (the shape that gets written back to storage). -/
def toCandidate (v : PomodoroSettings) : SettingsCandidate :=
  { workDuration := some v.workDuration
    shortBreakDuration := some v.shortBreakDuration
    longBreakDuration := some v.longBreakDuration
    sessionsBeforeLongBreak := some v.sessionsBeforeLongBreak
    autoStartNextSession := some v.autoStartNextSession
    notifications := some v.notifications
    theme := some v.theme
    language := some v.language }

/-- The object spread `{ ...base, ...p }`: fields present in `p` override
the corresponding fields of `base`; the result has every field present. -/
def mergeSettings (base : PomodoroSettings) (p : SettingsCandidate) : SettingsCandidate :=
  { workDuration := some (p.workDuration.getD base.workDuration)
    shortBreakDuration := some (p.shortBreakDuration.getD base.shortBreakDuration)
    longBreakDuration := some (p.longBreakDuration.getD base.longBreakDuration)
    sessionsBeforeLongBreak := some (p.sessionsBeforeLongBreak.getD base.sessionsBeforeLongBreak)
    autoStartNextSession := some (p.autoStartNextSession.getD base.autoStartNextSession)
    notifications := some (p.notifications.getD base.notifications)
    theme := some (p.theme.getD base.theme)
    language := some (p.language.getD base.language) }

/-- The reconciliation candidate of `loadSettings`:
`{ ...new DefaultPomodoroSettings(), ...parsed }`. -/
def mergeDefaults (p : ParsedSettings) : SettingsCandidate :=
  mergeSettings defaultPomodoroSettings p.fields

/-- Model of `saveSettings` (useTimerSettings.ts): clear the error; fail with
`storage_unavailable` when the backend probe fails; validate the in-memory
settings defensively (a `ZodError` here is not a `QuotaExceededError`, so it
lands on `invalid_data`); write, reporting `quota_exceeded` when the write
throws a `QuotaExceededError`. -/
def saveSettings (st : SettingsStoreState) : Bool × SettingsStoreState :=
  let st0 := { st with storageError := none }
  if st.storage.available = false then
    (false, { st0 with storageError := some { type := .storage_unavailable, message := "localStorage is not available" } })
  else
    match validatePomodoroSettings (toCandidate st.settings) with
    | some v =>
        if st.storage.quotaFull then
          (false, { st0 with storageError := some { type := .quota_exceeded, message := "Storage quota exceeded" } })
        else
          (true, { st0 with storage := { st.storage with stored := StoredValue.parsed { fields := toCandidate v, hasUnknown := false } } })
    | none =>
        (false, { st0 with storageError := some { type := .invalid_data, message := "Failed to save settings" } })

/-- Model of `loadSettings` (useTimerSettings.ts), client side: clear the
error; report `storage_unavailable` when the backend probe fails; do nothing
when the key is absent; on unparsable text set `parse_error` and fall back
to defaults; on parsed data adopt it when fully valid, otherwise reconcile
by merging onto defaults — adopting and immediately re-saving on success,
setting `invalid_data` and falling back to defaults on failure. -/
def loadSettings (st : SettingsStoreState) : SettingsStoreState :=
  let st0 := { st with storageError := none }
  if st.storage.available = false then
    { st0 with storageError := some { type := .storage_unavailable, message := "localStorage is not available" } }
  else
    match st.storage.stored with
    | .empty => st0
    | .malformed =>
        { st0 with storageError := some { type := .parse_error, message := "Failed to parse stored settings" }
                   settings := defaultPomodoroSettings }
    | .parsed p =>
        match validatePomodoroSettings p.fields with
        | some v => { st0 with settings := v }
        | none =>
            match validatePomodoroSettings (mergeDefaults p) with
            | some v => (saveSettings { st0 with settings := v }).2
            | none =>
                { st0 with storageError := some { type := .invalid_data, message := "Stored settings data is invalid" }
                           settings := defaultPomodoroSettings }

/-- Model of `updateSettings` (useTimerSettings.ts): merge the update onto
the current configuration, validate the merged result; a `ZodError` is
caught and the call returns false with nothing changed; on success the
validated merge is adopted and `saveSettings`' result is returned. -/
def updateSettings (st : SettingsStoreState) (p : SettingsCandidate) : Bool × SettingsStoreState :=
  match validatePomodoroSettings (mergeSettings st.settings p) with
  | some v => saveSettings { st with settings := v }
  | none => (false, st)

theorem isSome_ite {α : Type} (P : Prop) [Decidable P] (a : α) :
    ((if P then some a else (none : Option α)).isSome = true) ↔ P := by
  by_cases h : P
  · simp [h]
  · simp [h]

/-- C4 (counterexample): the claim says the validator accepts only integer
durations and rejects `workDuration = 25.5`. The schema has no integrality
check: the candidate with `workDuration = 51/2` (= 25.5) and all other
fields at their defaults is accepted, although 25.5 is not an integer. -/
theorem claim4_counterexample :
    isValidPomodoroSettings { toCandidate defaultPomodoroSettings with workDuration := some ((51 : ℚ)/2) } = true ∧
    validatePomodoroSettings { toCandidate defaultPomodoroSettings with workDuration := some ((51 : ℚ)/2) } =
      some { defaultPomodoroSettings with workDuration := (51 : ℚ)/2 } ∧
    ((51 : ℚ)/2).den ≠ 1 := by
  refine ⟨?_, ?_, by norm_num⟩ <;>
    simp +decide [isValidPomodoroSettings, validatePomodoroSettings, toCandidate,
      defaultPomodoroSettings, validLanguage] <;>
    norm_num

/-- C4 (amended): the validator accepts a candidate exactly when every field
is present, the three durations are numbers (not necessarily integers)
within their bounds (work and longBreak in [1,120], shortBreak in [1,60]),
`sessionsBeforeLongBreak` is a number in [2,10], and `language` matches the
ISO pattern; any missing or out-of-range field is rejected with a
validation error. -/
theorem claim4_amended (c : SettingsCandidate) :
    isValidPomodoroSettings c = true ↔
      (∃ w, c.workDuration = some w ∧ 1 ≤ w ∧ w ≤ 120) ∧
      (∃ sb, c.shortBreakDuration = some sb ∧ 1 ≤ sb ∧ sb ≤ 60) ∧
      (∃ lb, c.longBreakDuration = some lb ∧ 1 ≤ lb ∧ lb ≤ 120) ∧
      (∃ n, c.sessionsBeforeLongBreak = some n ∧ 2 ≤ n ∧ n ≤ 10) ∧
      c.autoStartNextSession.isSome = true ∧
      c.notifications.isSome = true ∧
      c.theme.isSome = true ∧
      (∃ lang, c.language = some lang ∧ validLanguage lang = true) := by
  obtain ⟨w0, sb0, lb0, n0, a0, nf0, th0, l0⟩ := c
  cases w0 <;> cases sb0 <;> cases lb0 <;> cases n0 <;> cases a0 <;> cases nf0 <;>
      cases th0 <;> cases l0 <;>
    simp only [isValidPomodoroSettings, validatePomodoroSettings, isSome_ite,
      Option.isSome_none, Option.isSome_some, Option.some.injEq, reduceCtorEq,
      Bool.false_eq_true, false_and, and_false, exists_false, exists_eq_left,
      exists_and_left, exists_eq_left', false_iff, iff_false, not_and, not_exists] <;>
    tauto

/-- C4 (witness for the amended claim): the default configuration, viewed as
a candidate, satisfies the acceptance characterization and is accepted. -/
theorem claim4_witness :
    isValidPomodoroSettings (toCandidate defaultPomodoroSettings) = true := by
  rw [claim4_amended]
  refine ⟨⟨25, rfl, by norm_num, by norm_num⟩, ⟨5, rfl, by norm_num, by norm_num⟩,
    ⟨15, rfl, by norm_num, by norm_num⟩, ⟨4, rfl, by norm_num, by norm_num⟩,
    rfl, rfl, rfl, ⟨"en", rfl, by decide⟩⟩

theorem validate_toCandidate {c : SettingsCandidate} {v : PomodoroSettings}
    (h : validatePomodoroSettings c = some v) :
    validatePomodoroSettings (toCandidate v) = some v := by
  obtain ⟨w0, sb0, lb0, n0, a0, nf0, th0, l0⟩ := c
  cases w0 <;> cases sb0 <;> cases lb0 <;> cases n0 <;> cases a0 <;> cases nf0 <;>
      cases th0 <;> cases l0 <;>
    simp only [validatePomodoroSettings, reduceCtorEq] at h
  split at h
  · rename_i hcond
    injection h with h
    subst h
    simp only [validatePomodoroSettings, toCandidate]
    rw [if_pos hcond]
  · exact Option.noConfusion h

theorem saveSettings_ok (st : SettingsStoreState) (v : PomodoroSettings)
    (hav : st.storage.available = true) (hq : st.storage.quotaFull = false)
    (hvalid : validatePomodoroSettings (toCandidate st.settings) = some v) :
    saveSettings st =
      (true, { st with storageError := none,
                       storage := { st.storage with stored := StoredValue.parsed { fields := toCandidate v, hasUnknown := false } } }) := by
  unfold saveSettings
  rw [hav, hvalid, hq]
  norm_num

/-- C7: `updateSettings` merges the update onto the current configuration
and validates the merge; when validation fails it returns false and the
whole store state — in-memory configuration and storage contents alike — is
exactly what it was before the call; when validation succeeds, the
validated merge is adopted and persisted, and the call returns
`saveSettings`' result. -/
theorem claim7_update_rollback (st : SettingsStoreState) (p : SettingsCandidate) :
    (validatePomodoroSettings (mergeSettings st.settings p) = none →
      updateSettings st p = (false, st)) ∧
    (∀ v, validatePomodoroSettings (mergeSettings st.settings p) = some v →
      updateSettings st p = saveSettings { st with settings := v }) := by
  constructor
  · intro h
    unfold updateSettings
    rw [h]
  · intro v h
    unfold updateSettings
    rw [h]

/-- C7 (witness): on a fresh store, `update (workDuration := -5)` fails
validation, returns false and leaves the state untouched. -/
theorem claim7_witness :
    validatePomodoroSettings
      (mergeSettings defaultPomodoroSettings
        { workDuration := some (-5), shortBreakDuration := none, longBreakDuration := none,
          sessionsBeforeLongBreak := none, autoStartNextSession := none, notifications := none,
          theme := none, language := none }) = none ∧
    updateSettings
      { settings := defaultPomodoroSettings, storageError := none,
        storage := { available := true, quotaFull := false, stored := StoredValue.empty } }
      { workDuration := some (-5), shortBreakDuration := none, longBreakDuration := none,
        sessionsBeforeLongBreak := none, autoStartNextSession := none, notifications := none,
        theme := none, language := none } =
    (false,
      { settings := defaultPomodoroSettings, storageError := none,
        storage := { available := true, quotaFull := false, stored := StoredValue.empty } }) := by
  have hv : validatePomodoroSettings
      (mergeSettings defaultPomodoroSettings
        { workDuration := some (-5), shortBreakDuration := none, longBreakDuration := none,
          sessionsBeforeLongBreak := none, autoStartNextSession := none, notifications := none,
          theme := none, language := none }) = none := by
    norm_num [validatePomodoroSettings, mergeSettings, defaultPomodoroSettings]
  exact ⟨hv, ((claim7_update_rollback _ _).1 hv)⟩

/-- C8: when the persisted value parses but fails full-schema validation,
`loadSettings` merges the parsed fields onto the defaults and re-validates;
when the reconciled value passes it is adopted, the error stays clear and
the corrected value is immediately re-persisted; when reconciliation also
fails, the error is set to `invalid_data` and the configuration falls back
to the defaults. -/
theorem claim8_load_reconcile (st : SettingsStoreState) (p : ParsedSettings)
    (hav : st.storage.available = true)
    (hq : st.storage.quotaFull = false)
    (hst : st.storage.stored = StoredValue.parsed p)
    (hfail : validatePomodoroSettings p.fields = none) :
    (∀ v, validatePomodoroSettings (mergeDefaults p) = some v →
      (loadSettings st).settings = v ∧
      (loadSettings st).storage.stored =
        StoredValue.parsed { fields := toCandidate v, hasUnknown := false } ∧
      (loadSettings st).storageError = none) ∧
    (validatePomodoroSettings (mergeDefaults p) = none →
      (loadSettings st).settings = defaultPomodoroSettings ∧
      (loadSettings st).storageError =
        some { type := StorageErrorType.invalid_data, message := "Stored settings data is invalid" }) := by
  constructor
  · intro v hrec
    have hload : loadSettings st =
        (saveSettings { st with storageError := none, settings := v }).2 := by
      unfold loadSettings
      simp [hav, hst, hfail, hrec]
    have hsave := saveSettings_ok { st with storageError := none, settings := v } v hav hq
      (validate_toCandidate hrec)
    rw [hload, hsave]
    exact ⟨rfl, rfl, rfl⟩
  · intro hrec
    have hload : loadSettings st =
        { st with settings := defaultPomodoroSettings, storageError := some { type := StorageErrorType.invalid_data, message := "Stored settings data is invalid" } } := by
      unfold loadSettings
      simp [hav, hst, hfail, hrec]
    rw [hload]
    exact ⟨rfl, rfl⟩

/-- The candidate fields of the persisted value in the C8 scenario:
`workDuration = 30`, everything else absent. -/
def sparseFields : SettingsCandidate :=
  { workDuration := some 30
    shortBreakDuration := none
    longBreakDuration := none
    sessionsBeforeLongBreak := none
    autoStartNextSession := none
    notifications := none
    theme := none
    language := none }

/-- The persisted value of the C8 scenario: parses to `workDuration = 30`
plus an unknown extra field. -/
def sparseParsed : ParsedSettings :=
  { fields := sparseFields, hasUnknown := true }

/-- A settings store over an available, non-full backend whose stored cell
holds the C8 scenario value. -/
def sparseStore : SettingsStoreState :=
  { settings := defaultPomodoroSettings
    storageError := none
    storage := { available := true, quotaFull := false, stored := StoredValue.parsed sparseParsed } }

/-- C8 (witness): loading the persisted value with `workDuration = 30`,
an unknown extra field, and every other required field absent yields the
default configuration with `workDuration` replaced by 30, and re-persists
that repaired value. -/
theorem claim8_witness :
    (loadSettings sparseStore).settings = { defaultPomodoroSettings with workDuration := 30 } ∧
    (loadSettings sparseStore).storage.stored =
      StoredValue.parsed
        { fields := toCandidate { defaultPomodoroSettings with workDuration := 30 }
          hasUnknown := false } := by
  have hfail : validatePomodoroSettings sparseParsed.fields = none := by
    simp [validatePomodoroSettings, sparseParsed, sparseFields]
  have hrec : validatePomodoroSettings (mergeDefaults sparseParsed) =
      some { defaultPomodoroSettings with workDuration := 30 } := by
    simp +decide [validatePomodoroSettings, mergeDefaults, mergeSettings,
      defaultPomodoroSettings, sparseParsed, sparseFields, validLanguage]
  have h := (claim8_load_reconcile sparseStore sparseParsed rfl rfl rfl hfail).1 _ hrec
  exact ⟨h.1, h.2.1⟩

end Pomodoro
